import Mathlib

/-!
Verification of the cloud-autoscaler core against its specification.

Shallow embedding conventions:
* Go `float64` percentages and ratios are modelled as `ℚ` (exact rationals);
  the modelled comparisons and arithmetic mirror the source expressions.
* Go `time.Time` and `time.Duration` are modelled as `ℤ` (nanosecond counts);
  `time.Since(x)` becomes `now - x` with `now` passed explicitly.
* Go `int` is modelled as `ℤ`.
* Go string-typed enums (`models.Trend`, `models.ThresholdStatus`,
  `models.ScalingAction`, `models.ServerState`, `models.EventType`) are
  modelled as `String` with the source's constant values, so that Go's
  zero value `""` for an unset field is representable.
* Mutex-protected maps become explicit functional state that is threaded
  through the operations; goroutine-asynchronous effects (provisioning
  timers, callbacks) are modelled as separate explicit steps.
-/

namespace Autoscaler

/-- One second in the nanosecond time scale used throughout the model. -/
def second : ℤ := 1000000000

/-- One minute in the nanosecond time scale used throughout the model. -/
def minute : ℤ := 60 * second

/-! ## pkg/models: string enums and records -/

abbrev Trend := String

def TrendRising : Trend := "rising"

def TrendFalling : Trend := "falling"

def TrendStable : Trend := "stable"

abbrev ThresholdStatus := String

def ThresholdNormal : ThresholdStatus := "normal"

def ThresholdWarning : ThresholdStatus := "warning"

def ThresholdCritical : ThresholdStatus := "critical"

abbrev ScalingAction := String

def ActionScaleUp : ScalingAction := "SCALE_UP"

def ActionScaleDown : ScalingAction := "SCALE_DOWN"

def ActionMaintain : ScalingAction := "MAINTAIN"

/-- models.AnalyzedMetrics (pkg/models, unnamed part_002). -/
structure AnalyzedMetrics where
  clusterID : String
  timestamp : ℤ
  avgCPU : ℚ
  avgMemory : ℚ
  serverCount : ℤ
  cpuStatus : ThresholdStatus
  memoryStatus : ThresholdStatus
  trend : Trend
  hasSpike : Bool
  spikePercent : ℚ
  recommendation : String
  sustainedHighAt : Option ℤ
  sustainedLowAt : Option ℤ
  deriving Repr, DecidableEq

/-- models.ClusterState (pkg/models/cluster.go area; field set from the source). -/
structure ClusterState where
  clusterID : String
  totalServers : ℤ
  activeServers : ℤ
  provisioningCnt : ℤ
  drainingCount : ℤ
  deriving Repr, DecidableEq

/-- models.ClusterState.CanScaleUp: totalServers < maxServers. -/
def ClusterState.CanScaleUp (cs : ClusterState) (maxServers : ℤ) : Bool :=
  decide (cs.totalServers < maxServers)

/-- models.ClusterState.CanScaleDown: activeServers > minServers. -/
def ClusterState.CanScaleDown (cs : ClusterState) (minServers : ℤ) : Bool :=
  decide (cs.activeServers > minServers)

/-- models.Prediction (pkg/models/prediction.go), fields the engine reads. -/
structure Prediction where
  predictedCPU : ℚ
  confidence : ℚ
  deriving Repr, DecidableEq

/-- models.Prediction.IsHighConfidence: confidence >= threshold. -/
def Prediction.IsHighConfidence (p : Prediction) (threshold : ℚ) : Bool :=
  decide (p.confidence ≥ threshold)

/-- models.ScalingDecision (pkg/models/decision.go). -/
structure ScalingDecision where
  clusterID : String
  timestamp : ℤ
  action : ScalingAction
  currentServers : ℤ
  targetServers : ℤ
  reason : String
  predictionUsed : Bool
  confidence : ℚ
  isEmergency : Bool
  cooldownActive : Bool
  deriving Repr, DecidableEq

/-- models.ScalingDecision.ShouldExecute: action is not Maintain and cooldown not active. -/
def ScalingDecision.ShouldExecute (d : ScalingDecision) : Bool :=
  decide (d.action ≠ ActionMaintain) && !d.cooldownActive

/-! ## internal/decision (unnamed part_015): the decision engine -/

/-- decision.Config (unnamed part_015). Durations are nanosecond counts. -/
structure DecisionConfig where
  cooldownPeriod : ℤ
  emergencyCPUThreshold : ℚ
  minServers : ℤ
  maxServers : ℤ
  maxScaleStep : ℤ
  targetCPU : ℚ
  cpuHighThreshold : ℚ
  cpuLowThreshold : ℚ
  sustainedHighDuration : ℤ
  sustainedLowDuration : ℤ
  deriving Repr, DecidableEq

/-- The config normalization performed by decision.NewEngine: every zero
field is replaced by its default. -/
def NewEngineConfig (cfg : DecisionConfig) : DecisionConfig where
  cooldownPeriod := if cfg.cooldownPeriod = 0 then 5 * minute else cfg.cooldownPeriod
  emergencyCPUThreshold :=
    if cfg.emergencyCPUThreshold = 0 then 95 else cfg.emergencyCPUThreshold
  minServers := if cfg.minServers = 0 then 2 else cfg.minServers
  maxServers := if cfg.maxServers = 0 then 50 else cfg.maxServers
  maxScaleStep := if cfg.maxScaleStep = 0 then 3 else cfg.maxScaleStep
  targetCPU := if cfg.targetCPU = 0 then 70 else cfg.targetCPU
  cpuHighThreshold := if cfg.cpuHighThreshold = 0 then 80 else cfg.cpuHighThreshold
  cpuLowThreshold := if cfg.cpuLowThreshold = 0 then 30 else cfg.cpuLowThreshold
  sustainedHighDuration :=
    if cfg.sustainedHighDuration = 0 then 2 * minute else cfg.sustainedHighDuration
  sustainedLowDuration :=
    if cfg.sustainedLowDuration = 0 then 10 * minute else cfg.sustainedLowDuration

/-- The engine's lastScaleTimes map, modelled functionally. -/
abbrev LastScaleTimes := String → Option ℤ

/-- The empty lastScaleTimes map decision.NewEngine starts with. -/
def emptyLastScaleTimes : LastScaleTimes := fun _ => none

/-- Engine.isInCooldown: a recorded last scale time exists and
now - lastScale < cooldownPeriod. -/
def isInCooldown (cfg : DecisionConfig) (lastScaleTimes : LastScaleTimes)
    (now : ℤ) (clusterID : String) : Bool :=
  match lastScaleTimes clusterID with
  | none => false
  | some lastScale => decide (now - lastScale < cfg.cooldownPeriod)

/-- Engine.RecordScaling: sets lastScaleTimes[clusterID] := now. -/
def RecordScaling (lastScaleTimes : LastScaleTimes) (now : ℤ)
    (clusterID : String) : LastScaleTimes :=
  fun cid => if cid = clusterID then some now else lastScaleTimes cid

/-- Go float-to-int conversion on the rational model: truncation toward zero. -/
def goTrunc (q : ℚ) : ℤ :=
  if 0 ≤ q then ⌊q⌋ else ⌈q⌉

/-- Engine.shouldScaleUp: returns (scaleUp, reason) following the source's
early-return order. -/
def shouldScaleUp (cfg : DecisionConfig) (now : ℤ) (analyzed : AnalyzedMetrics)
    (prediction : Option Prediction) (state : ClusterState) : Bool × String :=
  if !(state.CanScaleUp cfg.maxServers) then (false, "")
  else if analyzed.cpuStatus = ThresholdCritical then (true, "cpu_critical")
  else if analyzed.hasSpike then (true, "spike_detected")
  else if analyzed.cpuStatus = ThresholdWarning ∧ analyzed.trend = TrendRising then
    match analyzed.sustainedHighAt with
    | some t =>
      if now - t ≥ cfg.sustainedHighDuration then (true, "sustained_high_rising")
      else (true, "warning_rising_trend")
    | none => (true, "warning_rising_trend")
  else
    match analyzed.sustainedHighAt with
    | some t =>
      if now - t ≥ cfg.sustainedHighDuration then (true, "sustained_high_cpu")
      else
        match prediction with
        | some p =>
          if p.IsHighConfidence (7/10) ∧ p.predictedCPU ≥ cfg.cpuHighThreshold then
            (true, "predicted_spike_proactive")
          else (false, "")
        | none => (false, "")
    | none =>
      match prediction with
      | some p =>
        if p.IsHighConfidence (7/10) ∧ p.predictedCPU ≥ cfg.cpuHighThreshold then
          (true, "predicted_spike_proactive")
        else (false, "")
      | none => (false, "")

/-- Engine.shouldScaleDown: returns (scaleDown, reason) following the source's
early-return order. -/
def shouldScaleDown (cfg : DecisionConfig) (now : ℤ) (analyzed : AnalyzedMetrics)
    (prediction : Option Prediction) (state : ClusterState) : Bool × String :=
  if !(state.CanScaleDown cfg.minServers) then (false, "")
  else if analyzed.trend = TrendRising then (false, "")
  else if (match prediction with
           | some p =>
             p.IsHighConfidence (7/10) && decide (p.predictedCPU ≥ cfg.cpuHighThreshold)
           | none => false) then (false, "")
  else
    match analyzed.sustainedLowAt with
    | some t =>
      if now - t ≥ cfg.sustainedLowDuration ∧ analyzed.avgCPU < cfg.cpuLowThreshold then
        (true, "sustained_low_cpu")
      else if analyzed.avgCPU < cfg.cpuLowThreshold ∧ analyzed.trend = TrendFalling then
        (true, "low_cpu_falling_trend")
      else (false, "")
    | none =>
      if analyzed.avgCPU < cfg.cpuLowThreshold ∧ analyzed.trend = TrendFalling then
        (true, "low_cpu_falling_trend")
      else (false, "")

/-- Engine.calculateScaleUpDelta: emergency CPU takes maxScaleStep; otherwise
the ideal server count is int(activeServers * avgCPU / targetCPU) with Go's
truncating conversion, and the delta is clamped below by 1 and above by
maxScaleStep; the fallback is 1. -/
def calculateScaleUpDelta (cfg : DecisionConfig) (analyzed : AnalyzedMetrics)
    (state : ClusterState) : ℤ :=
  if analyzed.avgCPU ≥ cfg.emergencyCPUThreshold then cfg.maxScaleStep
  else if analyzed.avgCPU > 0 ∧ state.activeServers > 0 then
    let ratio := analyzed.avgCPU / cfg.targetCPU
    let idealServers := goTrunc ((state.activeServers : ℚ) * ratio)
    let delta := idealServers - state.activeServers
    let delta := if delta < 1 then 1 else delta
    let delta := if delta > cfg.maxScaleStep then cfg.maxScaleStep else delta
    delta
  else 1

/-- Engine.calculateScaleDownDelta: always 1. -/
def calculateScaleDownDelta : ℤ := 1

/-- Engine.createScaleUpDecision: target = activeServers + delta, clamped
above to maxServers. -/
def createScaleUpDecision (cfg : DecisionConfig) (decision : ScalingDecision)
    (state : ClusterState) (delta : ℤ) (reason : String) (isEmergency : Bool)
    (predictionUsed : Bool) : ScalingDecision :=
  let targetServers := state.activeServers + delta
  let targetServers := if targetServers > cfg.maxServers then cfg.maxServers else targetServers
  { decision with
    action := ActionScaleUp
    targetServers := targetServers
    reason := reason
    isEmergency := isEmergency
    predictionUsed := decision.predictionUsed || predictionUsed }

/-- Engine.createScaleDownDecision: target = activeServers - delta, clamped
below to minServers. -/
def createScaleDownDecision (cfg : DecisionConfig) (decision : ScalingDecision)
    (state : ClusterState) (delta : ℤ) (reason : String) : ScalingDecision :=
  let targetServers := state.activeServers - delta
  let targetServers := if targetServers < cfg.minServers then cfg.minServers else targetServers
  { decision with
    action := ActionScaleDown
    targetServers := targetServers
    reason := reason }

/-- Engine.Decide (unnamed part_015): emergency override first (hard-coded
delta 3), then the cooldown gate, then scale-up, then scale-down, then
Maintain with reason within_normal_parameters. -/
def Decide (cfg : DecisionConfig) (lastScaleTimes : LastScaleTimes) (now : ℤ)
    (analyzed : AnalyzedMetrics) (prediction : Option Prediction)
    (state : ClusterState) : ScalingDecision :=
  let decision : ScalingDecision :=
    { clusterID := analyzed.clusterID
      timestamp := now
      action := ActionMaintain
      currentServers := state.activeServers
      targetServers := state.activeServers
      reason := ""
      predictionUsed := false
      confidence := 0
      isEmergency := false
      cooldownActive := false }
  if analyzed.avgCPU ≥ cfg.emergencyCPUThreshold then
    createScaleUpDecision cfg decision state 3 "emergency_cpu_critical" true false
  else if isInCooldown cfg lastScaleTimes now analyzed.clusterID then
    { decision with cooldownActive := true, reason := "in_cooldown" }
  else
    let su := shouldScaleUp cfg now analyzed prediction state
    if su.1 then
      let targetDelta := calculateScaleUpDelta cfg analyzed state
      let predictionUsed := prediction.isSome && decide (su.2 = "predicted_spike_proactive")
      createScaleUpDecision cfg decision state targetDelta su.2 false predictionUsed
    else
      let sd := shouldScaleDown cfg now analyzed prediction state
      if sd.1 then
        createScaleDownDecision cfg decision state calculateScaleDownDelta sd.2
      else
        { decision with reason := "within_normal_parameters" }

/-! ## internal/analyzer/analyzer.go -/

/-- analyzer.Config (internal/analyzer/analyzer.go). -/
structure AnalyzerConfig where
  cpuHighThreshold : ℚ
  cpuLowThreshold : ℚ
  memoryHighThreshold : ℚ
  trendWindow : ℤ
  spikeThreshold : ℚ
  maxHistoryLength : ℤ
  deriving Repr, DecidableEq

/-- analyzer.metricsSnapshot. -/
structure Snapshot where
  timestamp : ℤ
  avgCPU : ℚ
  avgMemory : ℚ
  deriving Repr, DecidableEq

/-- models.ServerMetric (pkg/models/metrics.go). -/
structure ServerMetric where
  serverID : String
  cpuUsage : ℚ
  memoryUsage : ℚ
  requestLoad : ℤ
  deriving Repr, DecidableEq

/-- models.ClusterMetrics (pkg/models/metrics.go). -/
structure ClusterMetrics where
  clusterID : String
  timestamp : ℤ
  servers : List ServerMetric
  deriving Repr, DecidableEq

/-- models.AggregatedMetrics (pkg/models/metrics.go). -/
structure AggregatedMetrics where
  clusterID : String
  timestamp : ℤ
  avgCPU : ℚ
  avgMemory : ℚ
  avgLoad : ℚ
  maxCPU : ℚ
  minCPU : ℚ
  serverCount : ℤ
  activeServers : ℤ
  deriving Repr, DecidableEq

/-- models.ClusterMetrics.CalculateAggregates: arithmetic means and min/max
over the input servers; all-zero aggregates on empty input. -/
def CalculateAggregates (cm : ClusterMetrics) : AggregatedMetrics :=
  match cm.servers with
  | [] =>
    { clusterID := cm.clusterID, timestamp := cm.timestamp
      avgCPU := 0, avgMemory := 0, avgLoad := 0, maxCPU := 0, minCPU := 0
      serverCount := 0, activeServers := 0 }
  | s0 :: _ =>
    let totalCPU := (cm.servers.map (·.cpuUsage)).sum
    let totalMemory := (cm.servers.map (·.memoryUsage)).sum
    let totalLoad := (cm.servers.map (fun s => (s.requestLoad : ℚ))).sum
    let maxCPU := (cm.servers.map (·.cpuUsage)).foldl max s0.cpuUsage
    let minCPU := (cm.servers.map (·.cpuUsage)).foldl min s0.cpuUsage
    let count := cm.servers.length
    { clusterID := cm.clusterID, timestamp := cm.timestamp
      avgCPU := totalCPU / (count : ℚ), avgMemory := totalMemory / (count : ℚ)
      avgLoad := totalLoad / (count : ℚ), maxCPU := maxCPU, minCPU := minCPU
      serverCount := (count : ℤ), activeServers := (count : ℤ) }

/-- Analyzer.evaluateCPUThreshold: >= 95 Critical, >= cpuHighThreshold
Warning, else Normal. -/
def evaluateCPUThreshold (cfg : AnalyzerConfig) (cpu : ℚ) : ThresholdStatus :=
  if cpu ≥ 95 then ThresholdCritical
  else if cpu ≥ cfg.cpuHighThreshold then ThresholdWarning
  else ThresholdNormal

/-- Analyzer.evaluateMemoryThreshold: same shape with memoryHighThreshold. -/
def evaluateMemoryThreshold (cfg : AnalyzerConfig) (memory : ℚ) : ThresholdStatus :=
  if memory ≥ 95 then ThresholdCritical
  else if memory ≥ cfg.memoryHighThreshold then ThresholdWarning
  else ThresholdNormal

/-- Analyzer.recordSnapshot: append, then keep only the newest
maxHistoryLen entries. -/
def recordSnapshot (maxHistoryLen : ℤ) (history : List Snapshot)
    (snap : Snapshot) : List Snapshot :=
  let history := history ++ [snap]
  if (history.length : ℤ) > maxHistoryLen then
    history.drop (history.length - maxHistoryLen.toNat)
  else history

/-- Analyzer.averageCPU: mean of the snapshots' avgCPU, 0 on empty. -/
def averageCPU (snapshots : List Snapshot) : ℚ :=
  if snapshots.length = 0 then 0
  else ((snapshots.map (·.avgCPU)).sum) / (snapshots.length : ℚ)

/-- Analyzer.calculateTrend: require at least 3 snapshots overall and at
least 3 strictly inside the trend window; split the in-window slice at
length/2; compare mean CPU of the two halves against the fixed delta 3. -/
def calculateTrend (cfg : AnalyzerConfig) (history : List Snapshot)
    (now : ℤ) : Trend :=
  if history.length < 3 then TrendStable
  else
    let cutoff := now - cfg.trendWindow
    let recentSnapshots := history.filter (fun s => decide (cutoff < s.timestamp))
    if recentSnapshots.length < 3 then TrendStable
    else
      let firstHalf := recentSnapshots.take (recentSnapshots.length / 2)
      let secondHalf := recentSnapshots.drop (recentSnapshots.length / 2)
      let firstAvg := averageCPU firstHalf
      let secondAvg := averageCPU secondHalf
      let diff := secondAvg - firstAvg
      if diff > 3 then TrendRising
      else if diff < -3 then TrendFalling
      else TrendStable

/-- Analyzer.detectSpike: baseline is the most recent snapshot (excluding
the latest) strictly older than one minute, falling back to the
second-to-last snapshot; zero baseline means no spike. -/
def detectSpike (cfg : AnalyzerConfig) (history : List Snapshot) (now : ℤ)
    (currentCPU : ℚ) : Bool × ℚ :=
  if history.length < 2 then (false, 0)
  else
    let oneMinuteAgo := now - minute
    let found := ((history.take (history.length - 1)).reverse).find?
      (fun s => decide (s.timestamp < oneMinuteAgo))
    let previousCPU :=
      match found with
      | some s => s.avgCPU
      | none => (((history.get? (history.length - 2)).map (·.avgCPU)).getD 0)
    if previousCPU = 0 then (false, 0)
    else
      let changePercent := (currentCPU - previousCPU) / previousCPU * 100
      if changePercent ≥ cfg.spikeThreshold then (true, changePercent)
      else (false, changePercent)

/-- Analyzer.generateRecommendation: deterministic advisory mapping. -/
def generateRecommendation (cpuStatus : ThresholdStatus) (trend : Trend)
    (hasSpike : Bool) : String :=
  if cpuStatus = ThresholdCritical then "immediate_scale_up"
  else if hasSpike then "scale_up_spike_detected"
  else if cpuStatus = ThresholdWarning ∧ trend = TrendRising then "scale_up_rising_trend"
  else if cpuStatus = ThresholdWarning then "monitor_closely"
  else if cpuStatus = ThresholdNormal ∧ trend = TrendFalling then "consider_scale_down"
  else "maintain"

/-- Analyzer.Analyze restricted to one cluster's history list (the Go map
is keyed by cluster id; the per-cluster list is passed and returned
explicitly). The empty-server early return builds a struct literal whose
unspecified fields keep Go zero values. -/
def Analyze (cfg : AnalyzerConfig) (history : List Snapshot) (now : ℤ)
    (metrics : ClusterMetrics) : AnalyzedMetrics × List Snapshot :=
  if metrics.servers.length = 0 then
    ({ clusterID := metrics.clusterID
       timestamp := metrics.timestamp
       avgCPU := 0
       avgMemory := 0
       serverCount := 0
       cpuStatus := ThresholdNormal
       memoryStatus := ""
       trend := TrendStable
       hasSpike := false
       spikePercent := 0
       recommendation := ""
       sustainedHighAt := none
       sustainedLowAt := none }, history)
  else
    let aggregated := CalculateAggregates metrics
    let history :=
      recordSnapshot cfg.maxHistoryLength history
        { timestamp := metrics.timestamp
          avgCPU := aggregated.avgCPU
          avgMemory := aggregated.avgMemory }
    let cpuStatus := evaluateCPUThreshold cfg aggregated.avgCPU
    let memoryStatus := evaluateMemoryThreshold cfg aggregated.avgMemory
    let trend := calculateTrend cfg history now
    let spike := detectSpike cfg history now aggregated.avgCPU
    ({ clusterID := metrics.clusterID
       timestamp := metrics.timestamp
       avgCPU := aggregated.avgCPU
       avgMemory := aggregated.avgMemory
       serverCount := aggregated.serverCount
       cpuStatus := cpuStatus
       memoryStatus := memoryStatus
       trend := trend
       hasSpike := spike.1
       spikePercent := spike.2
       recommendation := generateRecommendation cpuStatus trend spike.1
       sustainedHighAt := none
       sustainedLowAt := none }, history)

/-! ## internal/resilience/circuit_breaker.go -/

/-- resilience.State. The Go constants are StateClosed, StateOpen,
StateHalfOpen; `opened` stands for StateOpen (`open` is a Lean keyword). -/
inductive CBState where
  | closed
  | opened
  | halfOpen
  deriving Repr, DecidableEq

/-- resilience.CircuitBreaker: configuration and mutable counters. -/
structure CircuitBreaker where
  maxFailures : ℤ
  timeout : ℤ
  halfOpenMax : ℤ
  state : CBState
  failures : ℤ
  successes : ℤ
  lastFailTime : ℤ
  deriving Repr, DecidableEq

/-- resilience.NewCircuitBreaker: nonpositive settings fall back to the
defaults 5 / 30s / 3; initial state is Closed with zeroed counters. -/
def NewCircuitBreaker (maxFailures timeout halfOpenMax : ℤ) : CircuitBreaker where
  maxFailures := if maxFailures ≤ 0 then 5 else maxFailures
  timeout := if timeout ≤ 0 then 30 * second else timeout
  halfOpenMax := if halfOpenMax ≤ 0 then 3 else halfOpenMax
  state := CBState.closed
  failures := 0
  successes := 0
  lastFailTime := 0

/-- CircuitBreaker.transitionTo: change state and clear both counters. -/
def transitionTo (cb : CircuitBreaker) (newState : CBState) : CircuitBreaker :=
  { cb with state := newState, failures := 0, successes := 0 }

/-- CircuitBreaker.canExecute: Closed and Half-Open allow the call; Open allows it and
moves to Half-Open only when now - lastFailTime is STRICTLY greater than
the timeout. -/
def canExecute (cb : CircuitBreaker) (now : ℤ) : Bool × CircuitBreaker :=
  match cb.state with
  | CBState.closed => (true, cb)
  | CBState.opened =>
    if now - cb.lastFailTime > cb.timeout then (true, transitionTo cb CBState.halfOpen)
    else (false, cb)
  | CBState.halfOpen => (true, cb)

/-- CircuitBreaker.recordSuccess: Closed resets failures; Half-Open counts
successes (the Go code increments first, then compares the incremented
count) and closes at halfOpenMax. -/
def recordSuccess (cb : CircuitBreaker) : CircuitBreaker :=
  match cb.state with
  | CBState.closed => { cb with failures := 0 }
  | CBState.halfOpen =>
    if cb.successes + 1 ≥ cb.halfOpenMax then
      transitionTo { cb with successes := cb.successes + 1 } CBState.closed
    else { cb with successes := cb.successes + 1 }
  | CBState.opened => cb

/-- CircuitBreaker.recordFailure: lastFailTime is stamped before the state
switch; Closed increments failures (comparing the incremented count) and
opens at maxFailures; Half-Open reopens on any failure. -/
def recordFailure (cb : CircuitBreaker) (now : ℤ) : CircuitBreaker :=
  match cb.state with
  | CBState.closed =>
    if cb.failures + 1 ≥ cb.maxFailures then
      transitionTo { cb with lastFailTime := now, failures := cb.failures + 1 }
        CBState.opened
    else { cb with lastFailTime := now, failures := cb.failures + 1 }
  | CBState.halfOpen => transitionTo { cb with lastFailTime := now } CBState.opened
  | CBState.opened => { cb with lastFailTime := now }

/-- Outcome of CircuitBreaker.Execute. -/
inductive ExecOutcome where
  | ok
  | circuitOpen
  | fnError
  deriving Repr, DecidableEq

/-- CircuitBreaker.Execute: admission check, then run the operation
(abstracted to whether it fails) and record the result. A rejected call
never runs the operation. -/
def Execute (cb : CircuitBreaker) (now : ℤ) (fnFails : Bool) :
    ExecOutcome × CircuitBreaker :=
  let adm := canExecute cb now
  if !adm.1 then (ExecOutcome.circuitOpen, adm.2)
  else if fnFails then (ExecOutcome.fnError, recordFailure adm.2 now)
  else (ExecOutcome.ok, recordSuccess adm.2)

/-- n consecutive recordFailure calls (no intervening success). -/
def applyFailures (cb : CircuitBreaker) (now : ℤ) : ℕ → CircuitBreaker
  | 0 => cb
  | n + 1 => recordFailure (applyFailures cb now n) now

/-- n consecutive recordSuccess calls (no intervening failure). -/
def applySuccesses (cb : CircuitBreaker) : ℕ → CircuitBreaker
  | 0 => cb
  | n + 1 => recordSuccess (applySuccesses cb n)

/-! ## internal/events/events.go: the event bus -/

abbrev EventType := String

def EventTypeMetricCollected : EventType := "metric_collected"

def EventTypeMetricAnalyzed : EventType := "metric_analyzed"

def EventTypeDecisionMade : EventType := "decision_made"

def EventTypeScalingStarted : EventType := "scaling_started"

def EventTypeScalingComplete : EventType := "scaling_complete"

def EventTypeScalingFailed : EventType := "scaling_failed"

def EventTypeServerAdded : EventType := "server_added"

def EventTypeServerRemoved : EventType := "server_removed"

def EventTypeServerActivated : EventType := "server_activated"

def EventTypeAlert : EventType := "alert"

def EventTypeError : EventType := "error"

/-- events.allEventTypes: every topic SubscribeAll registers under. -/
def allEventTypes : List EventType :=
  [EventTypeMetricCollected, EventTypeMetricAnalyzed, EventTypeDecisionMade,
   EventTypeScalingStarted, EventTypeScalingComplete, EventTypeScalingFailed,
   EventTypeServerAdded, EventTypeServerRemoved, EventTypeServerActivated,
   EventTypeAlert, EventTypeError]

/-- Channels are identified by allocation order (Go channel values are
compared by identity; freshness is what matters). -/
abbrev ChanId := ℕ

/-- Lookup in an association list modelling a Go map. -/
def lookupAssoc {α β : Type} [DecidableEq α] : List (α × β) → α → Option β
  | [], _ => none
  | (k, v) :: rest, a => if k = a then some v else lookupAssoc rest a

/-- Insert or replace in an association list modelling a Go map. -/
def setAssoc {α β : Type} [DecidableEq α] : List (α × β) → α → β → List (α × β)
  | [], a, b => [(a, b)]
  | (k, v) :: rest, a, b =>
    if k = a then (a, b) :: rest else (k, v) :: setAssoc rest a b

/-- events.EventBus. The subscribers map and the SubscribeAll channel list;
nextChan models allocation of fresh channels. -/
structure EventBus where
  subscribers : List (EventType × List ChanId)
  allChans : List ChanId
  bufferSize : ℤ
  closed : Bool
  nextChan : ChanId
  deriving Repr, DecidableEq

/-- events.NewEventBus: nonpositive buffer size falls back to 100. -/
def NewEventBus (bufferSize : ℤ) : EventBus where
  subscribers := []
  allChans := []
  bufferSize := if bufferSize ≤ 0 then 100 else bufferSize
  closed := false
  nextChan := 0

/-- EventBus.Subscribe: allocate a fresh channel and append it to the
topic's subscriber list; returns the channel. -/
def Subscribe (b : EventBus) (eventType : EventType) : ChanId × EventBus :=
  let ch := b.nextChan
  let cur := (lookupAssoc b.subscribers eventType).getD []
  (ch, { b with
         nextChan := ch + 1
         subscribers := setAssoc b.subscribers eventType (cur ++ [ch]) })

/-- EventBus.SubscribeAll: allocate one fresh channel, append it to every
topic's subscriber list, and track it in allChans. -/
def SubscribeAll (b : EventBus) : ChanId × EventBus :=
  let ch := b.nextChan
  let subs := allEventTypes.foldl
    (fun acc t => setAssoc acc t ((lookupAssoc acc t).getD [] ++ [ch]))
    b.subscribers
  (ch, { b with
         nextChan := ch + 1
         subscribers := subs
         allChans := b.allChans ++ [ch] })

/-- EventBus.Publish: the channels a publish attempts a non-blocking send
to; a closed bus attempts none (buffer-full drops happen per channel and
do not affect bus state). -/
def Publish (b : EventBus) (eventType : EventType) : List ChanId :=
  if b.closed then []
  else (lookupAssoc b.subscribers eventType).getD []

/-- The dedup loop inside EventBus.Close: close every channel of one
subscriber list that is not in the seen set, extending the seen set. -/
def closeList (seen : List ChanId) : List ChanId → List ChanId × List ChanId
  | [] => ([], seen)
  | ch :: rest =>
    if ch ∈ seen then closeList seen rest
    else
      let p := closeList (ch :: seen) rest
      (ch :: p.1, p.2)

/-- The outer loop of EventBus.Close over the subscribers map entries. -/
def closeEntries : List (EventType × List ChanId) → List ChanId →
    List ChanId × List ChanId
  | [], seen => ([], seen)
  | e :: rest, seen =>
    let p := closeList seen e.2
    let q := closeEntries rest p.2
    (p.1 ++ q.1, q.2)

/-- EventBus.Close: no-op when already closed; otherwise close the
SubscribeAll channels, then every other subscribed channel exactly once
via the closedChans set, and drain all lists. Returns the channels closed
in order. -/
def Close (b : EventBus) : List ChanId × EventBus :=
  if b.closed then ([], b)
  else
    let fromEntries := closeEntries b.subscribers b.allChans
    (b.allChans ++ fromEntries.1,
     { b with closed := true, subscribers := [], allChans := [] })

/-- Buses reachable from NewEventBus by subscriptions. -/
inductive BusReachable : EventBus → Prop where
  | new (bufferSize : ℤ) : BusReachable (NewEventBus bufferSize)
  | subscribe {b : EventBus} (eventType : EventType) :
      BusReachable b → BusReachable (Subscribe b eventType).2
  | subscribeAll {b : EventBus} :
      BusReachable b → BusReachable (SubscribeAll b).2

/-! ## internal/scaler (simulator_scaler.go, unnamed part_017) -/

abbrev ServerState := String

def ServerStateProvisioning : ServerState := "PROVISIONING"

def ServerStateActive : ServerState := "ACTIVE"

def ServerStateDraining : ServerState := "DRAINING"

def ServerStateTerminated : ServerState := "TERMINATED"

/-- models.Server. UUIDs are modelled as allocation-fresh naturals. -/
structure Server where
  id : ℕ
  clusterID : String
  state : ServerState
  createdAt : ℤ
  activatedAt : Option ℤ
  terminatedAt : Option ℤ
  deriving Repr, DecidableEq

/-- models.NewServer: fresh id, Provisioning state, createdAt now. -/
def NewServer (id : ℕ) (clusterID : String) (now : ℤ) : Server where
  id := id
  clusterID := clusterID
  state := ServerStateProvisioning
  createdAt := now
  activatedAt := none
  terminatedAt := none

/-- scaler.StateTracker: servers map, cluster membership map, and the
fresh-id counter standing for UUID generation. -/
structure StateTracker where
  servers : List (ℕ × Server)
  clusters : List (String × List ℕ)
  nextServerId : ℕ
  deriving Repr, DecidableEq

/-- scaler.NewStateTracker. -/
def NewStateTracker : StateTracker where
  servers := []
  clusters := []
  nextServerId := 0

/-- StateTracker.AddServer: register the server and append its id to its
cluster's list. -/
def AddServer (t : StateTracker) (server : Server) : StateTracker :=
  { t with
    servers := setAssoc t.servers server.id server
    clusters := setAssoc t.clusters server.clusterID
      ((lookupAssoc t.clusters server.clusterID).getD [] ++ [server.id]) }

/-- Errors of the scaler package (unnamed part_017). -/
inductive ScalerErr where
  | invalidTarget
  | clusterNotFound
  deriving Repr, DecidableEq

/-- StateTracker.UpdateState: set the server's state, stamping
activatedAt / terminatedAt on the respective transitions. -/
def UpdateState (t : StateTracker) (now : ℤ) (serverID : ℕ)
    (newState : ServerState) : Except ScalerErr Unit × StateTracker :=
  match lookupAssoc t.servers serverID with
  | none => (Except.error ScalerErr.clusterNotFound, t)
  | some server =>
    let server := { server with state := newState }
    let server :=
      if newState = ServerStateActive then { server with activatedAt := some now }
      else if newState = ServerStateTerminated then { server with terminatedAt := some now }
      else server
    (Except.ok (), { t with servers := setAssoc t.servers serverID server })

/-- StateTracker.GetClusterState: count non-terminated servers of the
cluster by lifecycle phase. -/
def GetClusterState (t : StateTracker) (clusterID : String) : ClusterState :=
  let serverIDs := (lookupAssoc t.clusters clusterID).getD []
  serverIDs.foldl
    (fun st id =>
      match lookupAssoc t.servers id with
      | none => st
      | some server =>
        if server.state = ServerStateProvisioning then
          { st with provisioningCnt := st.provisioningCnt + 1
                    totalServers := st.totalServers + 1 }
        else if server.state = ServerStateActive then
          { st with activeServers := st.activeServers + 1
                    totalServers := st.totalServers + 1 }
        else if server.state = ServerStateDraining then
          { st with drainingCount := st.drainingCount + 1
                    totalServers := st.totalServers + 1 }
        else st)
    { clusterID := clusterID, totalServers := 0, activeServers := 0
      provisioningCnt := 0, drainingCount := 0 }

/-- StateTracker.GetActiveServers: the cluster's servers in Active state,
in membership order. -/
def GetActiveServers (t : StateTracker) (clusterID : String) : List Server :=
  (((lookupAssoc t.clusters clusterID).getD []).filterMap
    (fun id => lookupAssoc t.servers id)).filter
    (fun s => decide (s.state = ServerStateActive))

/-- scaler.ScaleResult. The Go field PartialSuccess is `partialFlag`. -/
structure ScaleResult where
  clusterID : String
  success : Bool
  serversAdded : List ℕ
  serversRemoved : List ℕ
  partialFlag : Bool
  deriving Repr, DecidableEq

/-- The ScaleUp loop body: add n freshly provisioned servers (the async
activation after provisionTime is a separate UpdateState step). -/
def addServers (t : StateTracker) (now : ℤ) (clusterID : String) :
    ℕ → List ℕ × StateTracker
  | 0 => ([], t)
  | n + 1 =>
    let server := NewServer t.nextServerId clusterID now
    let t := AddServer { t with nextServerId := t.nextServerId + 1 } server
    let p := addServers t now clusterID n
    (server.id :: p.1, p.2)

/-- SimulatorScaler.ScaleUp: nonpositive count is rejected with
ErrInvalidTarget before any mutation; otherwise count servers are added in
Provisioning state. The external simulator notification has no effect on
the registry. -/
def ScaleUp (t : StateTracker) (now : ℤ) (clusterID : String) (count : ℤ) :
    Except ScalerErr ScaleResult × StateTracker :=
  if count ≤ 0 then (Except.error ScalerErr.invalidTarget, t)
  else
    let p := addServers t now clusterID count.toNat
    (Except.ok
      { clusterID := clusterID, success := true, serversAdded := p.1
        serversRemoved := [], partialFlag := false }, p.2)

/-- The ScaleDown loop body: begin draining the listed servers (the async
termination after the drain period is a separate UpdateState step). -/
def drainServers (now : ℤ) : StateTracker → List Server → StateTracker
  | t, [] => t
  | t, s :: rest => drainServers now (UpdateState t now s.id ServerStateDraining).2 rest

/-- SimulatorScaler.ScaleDown: nonpositive count is rejected with
ErrInvalidTarget before any mutation; a cluster with no active servers is
ErrClusterNotFound; otherwise up to count active servers start draining,
with partial success when fewer than requested were available. -/
def ScaleDown (t : StateTracker) (now : ℤ) (clusterID : String) (count : ℤ) :
    Except ScalerErr ScaleResult × StateTracker :=
  if count ≤ 0 then (Except.error ScalerErr.invalidTarget, t)
  else
    let activeServers := GetActiveServers t clusterID
    if activeServers.length = 0 then (Except.error ScalerErr.clusterNotFound, t)
    else
      let isPartialShortfall := decide ((activeServers.length : ℤ) < count)
      let toRemove := if (activeServers.length : ℤ) < count
        then activeServers.length else count.toNat
      let victims := activeServers.take toRemove
      let t := drainServers now t victims
      (Except.ok
        { clusterID := clusterID, success := true, serversAdded := []
          serversRemoved := victims.map (·.id)
          partialFlag := isPartialShortfall }, t)

/-! ## Pipeline execute stage (internal/metrics/prometheus.go) -/

/-- A published event: its type and, for scaling_complete, the scaling
event status derived from the result. -/
abbrev PubEvent := EventType × String

/-- Pipeline.execute with the scaler call abstracted to its returned
value: publish scaling_started; on error publish scaling_failed and do not
record cooldown; on success call RecordScaling, setting lastScaleTime to now, and
publish scaling_complete with status partial or success. -/
def pipelineExecute (d : ScalingDecision) (lastScaleTimes : LastScaleTimes)
    (now : ℤ) (scaleResp : Except ScalerErr ScaleResult) :
    Bool × LastScaleTimes × List PubEvent :=
  let started : List PubEvent := [(EventTypeScalingStarted, "")]
  match scaleResp with
  | Except.error _ =>
    (false, lastScaleTimes, started ++ [(EventTypeScalingFailed, "")])
  | Except.ok result =>
    let lastScaleTimes := RecordScaling lastScaleTimes now d.clusterID
    let status := if result.partialFlag then "partial" else "success"
    (true, lastScaleTimes, started ++ [(EventTypeScalingComplete, status)])

/-- The cycle's execute gate (Pipeline.runCycle step 5): execute only when
the decision's action is not Maintain and cooldown is not active. -/
def runExecuteStage (d : ScalingDecision) (lastScaleTimes : LastScaleTimes)
    (now : ℤ) (scaleResp : Except ScalerErr ScaleResult) :
    Bool × LastScaleTimes × List PubEvent :=
  if d.ShouldExecute then pipelineExecute d lastScaleTimes now scaleResp
  else (false, lastScaleTimes, [])

/-- Spec-side trend definition, written from the specification's words: on
the in-window snapshots (oldest first), require at least 3; split in half
with the lower (older) half first and, for odd length, the middle sample in
the upper half; with delta = mean CPU of the upper half minus mean CPU of
the lower half, Rising iff delta > 3, Falling iff delta < -3, else Stable. -/
def specTrend (inWindow : List Snapshot) : Trend :=
  if inWindow.length < 3 then TrendStable
  else
    let upperLen := (inWindow.length + 1) / 2
    let lowerHalf := inWindow.take (inWindow.length - upperLen)
    let upperHalf := inWindow.drop (inWindow.length - upperLen)
    let delta := averageCPU upperHalf - averageCPU lowerHalf
    if delta > 3 then TrendRising
    else if delta < -3 then TrendFalling
    else TrendStable

/-! ## Concrete instances used by counterexamples and witnesses -/

/-- A decision.Config with every field zero, i.e. all defaults after
NewEngine normalization. -/
def zeroDecisionConfig : DecisionConfig :=
  { cooldownPeriod := 0, emergencyCPUThreshold := 0, minServers := 0
    maxServers := 0, maxScaleStep := 0, targetCPU := 0, cpuHighThreshold := 0
    cpuLowThreshold := 0, sustainedHighDuration := 0, sustainedLowDuration := 0 }

/-- The default engine configuration produced by NewEngine on a zero config. -/
def defaultEngineConfig : DecisionConfig := NewEngineConfig zeroDecisionConfig

/-- An engine configuration with MaxScaleStep configured to 5. -/
def step5Config : DecisionConfig :=
  NewEngineConfig { zeroDecisionConfig with maxScaleStep := 5 }

/-- Analyzed metrics at emergency CPU level (avgCpu 96). -/
def emergencyAnalyzed : AnalyzedMetrics :=
  { clusterID := "cluster-1", timestamp := 0, avgCPU := 96, avgMemory := 50
    serverCount := 4, cpuStatus := ThresholdCritical
    memoryStatus := ThresholdNormal, trend := TrendStable, hasSpike := false
    spikePercent := 0, recommendation := "", sustainedHighAt := none
    sustainedLowAt := none }

/-- Analyzed metrics at avgCpu 90, Warning status, rising trend: a
non-emergency scale-up condition. -/
def warnRisingAnalyzed : AnalyzedMetrics :=
  { clusterID := "cluster-1", timestamp := 0, avgCPU := 90, avgMemory := 50
    serverCount := 4, cpuStatus := ThresholdWarning
    memoryStatus := ThresholdNormal, trend := TrendRising, hasSpike := false
    spikePercent := 0, recommendation := "", sustainedHighAt := none
    sustainedLowAt := none }

/-- A cluster with 4 active, 4 total servers. -/
def state44 : ClusterState :=
  { clusterID := "cluster-1", totalServers := 4, activeServers := 4
    provisioningCnt := 0, drainingCount := 0 }

/-- An analyzer configuration at the documented defaults. -/
def defaultAnalyzerConfig : AnalyzerConfig :=
  { cpuHighThreshold := 80, cpuLowThreshold := 30, memoryHighThreshold := 85
    trendWindow := 5 * minute, spikeThreshold := 50, maxHistoryLength := 30 }

/-- Cluster metrics with an empty server list. -/
def emptyClusterMetrics : ClusterMetrics :=
  { clusterID := "cluster-1", timestamp := 0, servers := [] }

/-- A fresh breaker with maxFailures 3, timeout 30s, halfOpenMax 3. -/
def cbClosed3 : CircuitBreaker := NewCircuitBreaker 3 (30 * second) 3

/-- A breaker in the Open state whose last failure was at time 0. -/
def cbOpenAt0 : CircuitBreaker :=
  { maxFailures := 3, timeout := 30 * second, halfOpenMax := 3
    state := CBState.opened, failures := 0, successes := 0, lastFailTime := 0 }

/-- A breaker in the Half-Open state with no successes recorded yet. -/
def cbHalfOpen : CircuitBreaker := { cbOpenAt0 with state := CBState.halfOpen }

/-- A tracker holding one active server of cluster-1. -/
def tracker1 : StateTracker :=
  AddServer NewStateTracker
    { id := 0, clusterID := "cluster-1", state := ServerStateActive
      createdAt := 0, activatedAt := some 0, terminatedAt := none }

/-- A non-emergency ScaleUp decision outside cooldown. -/
def scaleUpDecision1 : ScalingDecision :=
  { clusterID := "cluster-1", timestamp := 0, action := ActionScaleUp
    currentServers := 4, targetServers := 6, reason := "cpu_critical"
    predictionUsed := false, confidence := 0, isEmergency := false
    cooldownActive := false }

/-- A scaler result reporting partial success. -/
def partialResult1 : ScaleResult :=
  { clusterID := "cluster-1", success := true, serversAdded := []
    serversRemoved := [3], partialFlag := true }

/-- A bus with one plain subscription on alert and one SubscribeAll. -/
def witnessBus : EventBus :=
  (SubscribeAll (Subscribe (NewEventBus 10) EventTypeAlert).2).2

/-! ## Theorems -/

/-- C10: whenever analyzed.avgCpu >= emergencyCpuThreshold, Decide returns
an emergency ScaleUp decision with no capacity check and the fixed delta 3
(independent of maxScaleStep): targetServers = min(activeServers + 3,
maxServers), so at full capacity targetServers = currentServers. -/
theorem decide_emergency_unconditional
    (cfg : DecisionConfig) (lastScaleTimes : LastScaleTimes) (now : ℤ)
    (analyzed : AnalyzedMetrics) (prediction : Option Prediction)
    (state : ClusterState)
    (h : analyzed.avgCPU ≥ cfg.emergencyCPUThreshold) :
    (Decide cfg lastScaleTimes now analyzed prediction state).action = ActionScaleUp ∧
    (Decide cfg lastScaleTimes now analyzed prediction state).isEmergency = true ∧
    (Decide cfg lastScaleTimes now analyzed prediction state).currentServers
      = state.activeServers ∧
    (Decide cfg lastScaleTimes now analyzed prediction state).targetServers
      = min (state.activeServers + 3) cfg.maxServers ∧
    (state.activeServers = cfg.maxServers →
      (Decide cfg lastScaleTimes now analyzed prediction state).targetServers
        = (Decide cfg lastScaleTimes now analyzed prediction state).currentServers) := by
  simp only [Decide, createScaleUpDecision, if_pos h]
  refine ⟨trivial, trivial, trivial, ?_, ?_⟩
  · rw [min_def]
    split_ifs <;> omega
  · intro heq
    split_ifs <;> omega

/-- C10 witness: the emergency theorem applied at the default config,
avgCpu 96 and a full 4-of-4 cluster state. -/
theorem decide_emergency_unconditional_witness :
    emergencyAnalyzed.avgCPU ≥ defaultEngineConfig.emergencyCPUThreshold ∧
    (Decide defaultEngineConfig emptyLastScaleTimes 0 emergencyAnalyzed none
      state44).action = ActionScaleUp := by
  refine ⟨by norm_num [emergencyAnalyzed, defaultEngineConfig, NewEngineConfig,
    zeroDecisionConfig], ?_⟩
  exact (decide_emergency_unconditional defaultEngineConfig emptyLastScaleTimes 0
    emergencyAnalyzed none state44
    (by norm_num [emergencyAnalyzed, defaultEngineConfig, NewEngineConfig,
      zeroDecisionConfig])).1

/-- C1 counterexample: with maxScaleStep configured to 5, an emergency
decision at avgCpu 96 with 4 of 4 servers (capacity 50) scales by the
hard-coded 3, not by maxScaleStep: targetServers is 7, not 9. -/
theorem emergency_delta_not_maxScaleStep :
    emergencyAnalyzed.avgCPU ≥ step5Config.emergencyCPUThreshold ∧
    state44.totalServers < step5Config.maxServers ∧
    (Decide step5Config emptyLastScaleTimes 0 emergencyAnalyzed none
      state44).action = ActionScaleUp ∧
    (Decide step5Config emptyLastScaleTimes 0 emergencyAnalyzed none
      state44).isEmergency = true ∧
    (Decide step5Config emptyLastScaleTimes 0 emergencyAnalyzed none
      state44).targetServers
      ≠ min (state44.activeServers + step5Config.maxScaleStep)
          step5Config.maxServers := by
  decide

/-- C1 amended: for analyzed metrics at or above the emergency threshold
and totalServers < maxServers, Decide returns ScaleUp with
isEmergency = true and the fixed delta 3 (clamped to maxServers),
regardless of any prior RecordScaling. -/
theorem emergency_override_fixed_delta
    (cfg : DecisionConfig) (lastScaleTimes : LastScaleTimes) (now : ℤ)
    (analyzed : AnalyzedMetrics) (prediction : Option Prediction)
    (state : ClusterState)
    (h1 : analyzed.avgCPU ≥ cfg.emergencyCPUThreshold)
    (_h2 : state.totalServers < cfg.maxServers) :
    (Decide cfg lastScaleTimes now analyzed prediction state).action = ActionScaleUp ∧
    (Decide cfg lastScaleTimes now analyzed prediction state).isEmergency = true ∧
    (Decide cfg lastScaleTimes now analyzed prediction state).targetServers
      = min (state.activeServers + 3) cfg.maxServers := by
  simp only [Decide, createScaleUpDecision, if_pos h1]
  refine ⟨trivial, trivial, ?_⟩
  rw [min_def]
  split_ifs <;> omega

/-- C1 amended witness: the emergency override at the default config with
a cooldown recorded at time 0 and Decide at time 1s, avgCpu 96, 4 of 4
servers: ScaleUp to 7 servers despite the active cooldown. -/
theorem emergency_override_fixed_delta_witness :
    emergencyAnalyzed.avgCPU ≥ defaultEngineConfig.emergencyCPUThreshold ∧
    state44.totalServers < defaultEngineConfig.maxServers ∧
    (Decide defaultEngineConfig
      (RecordScaling emptyLastScaleTimes 0 "cluster-1") second emergencyAnalyzed
      none state44).targetServers = 7 := by
  have h1 : emergencyAnalyzed.avgCPU ≥ defaultEngineConfig.emergencyCPUThreshold := by
    norm_num [emergencyAnalyzed, defaultEngineConfig, NewEngineConfig,
      zeroDecisionConfig]
  have h2 : state44.totalServers < defaultEngineConfig.maxServers := by
    norm_num [state44, defaultEngineConfig, NewEngineConfig, zeroDecisionConfig]
  refine ⟨h1, h2, ?_⟩
  have h3 := (emergency_override_fixed_delta defaultEngineConfig
    (RecordScaling emptyLastScaleTimes 0 "cluster-1") second emergencyAnalyzed
    none state44 h1 h2).2.2
  rw [h3]
  decide

/-- C3: if RecordScaling ran at time t0 for this cluster and Decide runs at
time t with t - t0 < cooldownPeriod and avgCpu below the emergency
threshold, the decision is Maintain with cooldownActive = true. -/
theorem decide_cooldown_maintain
    (cfg : DecisionConfig) (lastScaleTimes : LastScaleTimes) (t0 t : ℤ)
    (analyzed : AnalyzedMetrics) (prediction : Option Prediction)
    (state : ClusterState)
    (h1 : t - t0 < cfg.cooldownPeriod)
    (h2 : analyzed.avgCPU < cfg.emergencyCPUThreshold) :
    (Decide cfg (RecordScaling lastScaleTimes t0 analyzed.clusterID) t analyzed
      prediction state).action = ActionMaintain ∧
    (Decide cfg (RecordScaling lastScaleTimes t0 analyzed.clusterID) t analyzed
      prediction state).cooldownActive = true := by
  have hcd : isInCooldown cfg (RecordScaling lastScaleTimes t0 analyzed.clusterID)
      t analyzed.clusterID = true := by
    simp only [isInCooldown, RecordScaling, if_pos rfl]
    exact decide_eq_true h1
  simp only [Decide, if_neg (not_le.mpr h2), hcd, if_true]
  exact ⟨trivial, trivial⟩

/-- C3 witness: cooldown recorded at t0 = 0, Decide at t = 1s with the
30s-free default cooldown (5 min) and avgCpu 90 below the emergency 95:
Maintain with cooldownActive. -/
theorem decide_cooldown_maintain_witness :
    (0 : ℤ) + second - 0 < defaultEngineConfig.cooldownPeriod ∧
    warnRisingAnalyzed.avgCPU < defaultEngineConfig.emergencyCPUThreshold ∧
    (Decide defaultEngineConfig
      (RecordScaling emptyLastScaleTimes 0 warnRisingAnalyzed.clusterID) second
      warnRisingAnalyzed none state44).action = ActionMaintain := by
  have h1 : second - (0 : ℤ) < defaultEngineConfig.cooldownPeriod := by
    norm_num [defaultEngineConfig, NewEngineConfig, zeroDecisionConfig, second,
      minute]
  have h2 : warnRisingAnalyzed.avgCPU < defaultEngineConfig.emergencyCPUThreshold := by
    norm_num [warnRisingAnalyzed, defaultEngineConfig, NewEngineConfig,
      zeroDecisionConfig]
  refine ⟨by simpa using h1, h2, ?_⟩
  exact (decide_cooldown_maintain defaultEngineConfig emptyLastScaleTimes 0 second
    warnRisingAnalyzed none state44 h1 h2).1

/-- Helper: a successful shouldScaleUp implies the capacity check passed,
i.e. totalServers < maxServers. -/
theorem shouldScaleUp_capacity
    (cfg : DecisionConfig) (now : ℤ) (analyzed : AnalyzedMetrics)
    (prediction : Option Prediction) (state : ClusterState)
    (hsu : (shouldScaleUp cfg now analyzed prediction state).1 = true) :
    state.totalServers < cfg.maxServers := by
  by_contra hc
  have hfalse : state.CanScaleUp cfg.maxServers = false := by
    unfold ClusterState.CanScaleUp
    simpa using hc
  unfold shouldScaleUp at hsu
  rw [hfalse] at hsu
  simp at hsu

/-- Helper: characterization of a non-emergency scale-up decision (below
the emergency threshold, not in cooldown, a scale-up condition matched,
positive avgCpu and activeServers, maxScaleStep >= 1): the delta is
clamp(trunc(activeServers * avgCpu / targetCpu) - activeServers, 1,
maxScaleStep) and targetServers = min(activeServers + delta, maxServers),
which strictly exceeds currentServers. -/
theorem scaleup_decision_characterization
    (cfg : DecisionConfig) (lastScaleTimes : LastScaleTimes) (now : ℤ)
    (analyzed : AnalyzedMetrics) (prediction : Option Prediction)
    (state : ClusterState)
    (hem : analyzed.avgCPU < cfg.emergencyCPUThreshold)
    (hcd : isInCooldown cfg lastScaleTimes now analyzed.clusterID = false)
    (hsu : (shouldScaleUp cfg now analyzed prediction state).1 = true)
    (hpos : 0 < analyzed.avgCPU) (hact : 0 < state.activeServers)
    (hstep : 1 ≤ cfg.maxScaleStep)
    (hle : state.activeServers ≤ state.totalServers) :
    (Decide cfg lastScaleTimes now analyzed prediction state).action
      = ActionScaleUp ∧
    (Decide cfg lastScaleTimes now analyzed prediction state).isEmergency
      = false ∧
    (Decide cfg lastScaleTimes now analyzed prediction state).currentServers
      = state.activeServers ∧
    (Decide cfg lastScaleTimes now analyzed prediction state).targetServers
      = min (state.activeServers +
          min cfg.maxScaleStep
            (max 1 (goTrunc ((state.activeServers : ℚ)
                * (analyzed.avgCPU / cfg.targetCPU)) - state.activeServers)))
        cfg.maxServers ∧
    (Decide cfg lastScaleTimes now analyzed prediction state).currentServers
      < (Decide cfg lastScaleTimes now analyzed prediction state).targetServers := by
  have hnem : ¬ (analyzed.avgCPU ≥ cfg.emergencyCPUThreshold) := not_le.mpr hem
  have hcap : state.totalServers < cfg.maxServers :=
    shouldScaleUp_capacity cfg now analyzed prediction state hsu
  have hdelta : calculateScaleUpDelta cfg analyzed state
      = min cfg.maxScaleStep
          (max 1 (goTrunc ((state.activeServers : ℚ)
            * (analyzed.avgCPU / cfg.targetCPU)) - state.activeServers)) := by
    unfold calculateScaleUpDelta
    rw [if_neg hnem, if_pos ⟨hpos, hact⟩]
    simp only []
    generalize goTrunc ((state.activeServers : ℚ)
      * (analyzed.avgCPU / cfg.targetCPU)) = R
    rw [min_def, max_def]
    split_ifs <;> omega
  simp only [Decide, createScaleUpDecision, if_neg hnem, hcd,
    Bool.false_eq_true, if_false, hsu, if_true]
  rw [hdelta]
  set D : ℤ := min cfg.maxScaleStep
    (max 1 (goTrunc ((state.activeServers : ℚ)
      * (analyzed.avgCPU / cfg.targetCPU)) - state.activeServers)) with hD
  have hD1 : 1 ≤ D := le_min hstep (le_max_left _ _)
  refine ⟨trivial, trivial, trivial, ?_, ?_⟩
  · rw [min_def]
    split_ifs <;> omega
  · split_ifs <;> omega

/-- C2 amended: for every non-emergency scale-up decision (avgCpu below the
emergency threshold, not in cooldown, a scale-up condition matched) with
avgCpu > 0, activeServers > 0 and maxScaleStep >= 1, the delta equals
clamp(trunc(activeServers * avgCpu / targetCpu) - activeServers, 1,
maxScaleStep) — truncating, not ceil — and targetServers =
min(activeServers + delta, maxServers), based on activeServers rather than
totalServers. No clamp reduces the decision to Maintain: with
activeServers <= totalServers < maxServers, targetServers strictly exceeds
currentServers and the decision stays ScaleUp. -/
theorem decide_scaleup_delta_formula
    (cfg : DecisionConfig) (lastScaleTimes : LastScaleTimes) (now : ℤ)
    (analyzed : AnalyzedMetrics) (prediction : Option Prediction)
    (state : ClusterState)
    (hem : analyzed.avgCPU < cfg.emergencyCPUThreshold)
    (hcd : isInCooldown cfg lastScaleTimes now analyzed.clusterID = false)
    (hsu : (shouldScaleUp cfg now analyzed prediction state).1 = true)
    (hpos : 0 < analyzed.avgCPU) (hact : 0 < state.activeServers)
    (hstep : 1 ≤ cfg.maxScaleStep)
    (hle : state.activeServers ≤ state.totalServers) :
    (Decide cfg lastScaleTimes now analyzed prediction state).action
      = ActionScaleUp ∧
    (Decide cfg lastScaleTimes now analyzed prediction state).targetServers
      = min (state.activeServers +
          min cfg.maxScaleStep
            (max 1 (goTrunc ((state.activeServers : ℚ)
                * (analyzed.avgCPU / cfg.targetCPU)) - state.activeServers)))
        cfg.maxServers ∧
    (Decide cfg lastScaleTimes now analyzed prediction state).currentServers
      < (Decide cfg lastScaleTimes now analyzed prediction state).targetServers := by
  obtain ⟨h1, _, _, h4, h5⟩ := scaleup_decision_characterization cfg
    lastScaleTimes now analyzed prediction state hem hcd hsu hpos hact hstep hle
  exact ⟨h1, h4, h5⟩

/-- C2 counterexample: at the default config (targetCpu 70, maxScaleStep 3,
maxServers 50), avgCpu 90, Warning status with rising trend, 4 active of 4
total servers: the code truncates int(4 * 90/70) = 5, giving delta 1 and
targetServers 5, whereas the claimed formula
min(totalServers + clamp(ceil(4*90/70) - 4, 1, 3), 50) evaluates to 6. -/
theorem scaleup_delta_truncates_not_ceil :
    warnRisingAnalyzed.avgCPU < defaultEngineConfig.emergencyCPUThreshold ∧
    (Decide defaultEngineConfig emptyLastScaleTimes 0 warnRisingAnalyzed none
      state44).action = ActionScaleUp ∧
    (Decide defaultEngineConfig emptyLastScaleTimes 0 warnRisingAnalyzed none
      state44).isEmergency = false ∧
    (Decide defaultEngineConfig emptyLastScaleTimes 0 warnRisingAnalyzed none
      state44).targetServers = 5 ∧
    min (state44.totalServers +
        min defaultEngineConfig.maxScaleStep
          (max 1 (⌈(state44.activeServers : ℚ) * warnRisingAnalyzed.avgCPU
              / defaultEngineConfig.targetCPU⌉ - state44.activeServers)))
      defaultEngineConfig.maxServers = 6 ∧
    (Decide defaultEngineConfig emptyLastScaleTimes 0 warnRisingAnalyzed none
      state44).targetServers
      ≠ min (state44.totalServers +
          min defaultEngineConfig.maxScaleStep
            (max 1 (⌈(state44.activeServers : ℚ) * warnRisingAnalyzed.avgCPU
                / defaultEngineConfig.targetCPU⌉ - state44.activeServers)))
        defaultEngineConfig.maxServers := by
  have hem : warnRisingAnalyzed.avgCPU < defaultEngineConfig.emergencyCPUThreshold := by
    norm_num [warnRisingAnalyzed, defaultEngineConfig, NewEngineConfig,
      zeroDecisionConfig]
  have hsu : (shouldScaleUp defaultEngineConfig 0 warnRisingAnalyzed none
      state44).1 = true := by decide
  obtain ⟨ha, hie, _, htgt, _⟩ := scaleup_decision_characterization
    defaultEngineConfig emptyLastScaleTimes 0 warnRisingAnalyzed none state44
    hem rfl hsu (by norm_num [warnRisingAnalyzed]) (by decide) (by decide)
    (by decide)
  have hgt : goTrunc ((state44.activeServers : ℚ)
      * (warnRisingAnalyzed.avgCPU / defaultEngineConfig.targetCPU)) = 5 := by
    norm_num [goTrunc, state44, warnRisingAnalyzed, defaultEngineConfig,
      NewEngineConfig, zeroDecisionConfig]
  have htgt5 : (Decide defaultEngineConfig emptyLastScaleTimes 0
      warnRisingAnalyzed none state44).targetServers = 5 := by
    rw [htgt, hgt]
    simp only [state44, defaultEngineConfig, NewEngineConfig, zeroDecisionConfig]
    norm_num
  have hceil : ⌈(state44.activeServers : ℚ) * warnRisingAnalyzed.avgCPU
      / defaultEngineConfig.targetCPU⌉ = 6 := by
    rw [show ((state44.activeServers : ℚ) * warnRisingAnalyzed.avgCPU
        / defaultEngineConfig.targetCPU) = 36/7 by
      norm_num [state44, warnRisingAnalyzed, defaultEngineConfig,
        NewEngineConfig, zeroDecisionConfig]]
    rw [Int.ceil_eq_iff]
    norm_num
  have hclaim : min (state44.totalServers +
      min defaultEngineConfig.maxScaleStep
        (max 1 (⌈(state44.activeServers : ℚ) * warnRisingAnalyzed.avgCPU
            / defaultEngineConfig.targetCPU⌉ - state44.activeServers)))
      defaultEngineConfig.maxServers = 6 := by
    rw [hceil]
    simp only [state44, defaultEngineConfig, NewEngineConfig, zeroDecisionConfig]
    norm_num
  refine ⟨hem, ha, hie, htgt5, hclaim, ?_⟩
  rw [htgt5, hclaim]
  decide

/-- C2 amended witness: the delta formula applied at the default config,
avgCpu 90, Warning status and rising trend, 4 of 4 servers: ScaleUp to
exactly 5 servers. -/
theorem decide_scaleup_delta_formula_witness :
    warnRisingAnalyzed.avgCPU < defaultEngineConfig.emergencyCPUThreshold ∧
    (shouldScaleUp defaultEngineConfig 0 warnRisingAnalyzed none state44).1 = true ∧
    (Decide defaultEngineConfig emptyLastScaleTimes 0 warnRisingAnalyzed none
      state44).targetServers = 5 := by
  have hem : warnRisingAnalyzed.avgCPU < defaultEngineConfig.emergencyCPUThreshold := by
    norm_num [warnRisingAnalyzed, defaultEngineConfig, NewEngineConfig,
      zeroDecisionConfig]
  have hsu : (shouldScaleUp defaultEngineConfig 0 warnRisingAnalyzed none
      state44).1 = true := by decide
  refine ⟨hem, hsu, ?_⟩
  have h := (decide_scaleup_delta_formula defaultEngineConfig
    emptyLastScaleTimes 0 warnRisingAnalyzed none state44 hem rfl hsu
    (by norm_num [warnRisingAnalyzed]) (by decide) (by decide) (by decide)).2.1
  rw [h]
  have hgt : goTrunc ((state44.activeServers : ℚ)
      * (warnRisingAnalyzed.avgCPU / defaultEngineConfig.targetCPU)) = 5 := by
    norm_num [goTrunc, state44, warnRisingAnalyzed, defaultEngineConfig,
      NewEngineConfig, zeroDecisionConfig]
  rw [hgt]
  simp only [state44, defaultEngineConfig, NewEngineConfig, zeroDecisionConfig]
  norm_num

/-- Helper: before the maxFailures-th consecutive failure, a breaker that
started Closed with zero failures stays Closed and counts the failures. -/
theorem applyFailures_closed (cb : CircuitBreaker) (now : ℤ) (k : ℕ)
    (hc : cb.state = CBState.closed) (hf : cb.failures = 0)
    (hk : (k : ℤ) < cb.maxFailures) :
    (applyFailures cb now k).state = CBState.closed ∧
    (applyFailures cb now k).failures = (k : ℤ) ∧
    (applyFailures cb now k).maxFailures = cb.maxFailures := by
  induction k with
  | zero =>
    refine ⟨hc, ?_, rfl⟩
    simpa using hf
  | succ k ih =>
    obtain ⟨h1, h2, h3⟩ := ih (by push_cast at hk ⊢; omega)
    have hlt : ¬ ((applyFailures cb now k).failures + 1
        ≥ (applyFailures cb now k).maxFailures) := by
      rw [h2, h3]
      push_cast at hk ⊢
      omega
    simp only [applyFailures, recordFailure, h1, if_neg hlt]
    refine ⟨trivial, ?_, h3⟩
    simp [h2]

/-- Helper: the maxFailures-th consecutive failure from Closed-with-zero
moves the breaker to Open. -/
theorem applyFailures_opens (cb : CircuitBreaker) (now : ℤ) (n : ℕ)
    (hc : cb.state = CBState.closed) (hf : cb.failures = 0)
    (hm : cb.maxFailures = (n : ℤ)) (hpos : 0 < n) :
    (applyFailures cb now n).state = CBState.opened := by
  obtain ⟨h1, h2, h3⟩ := applyFailures_closed cb now (n - 1) hc hf
    (by rw [hm]; omega)
  have hn : n = (n - 1) + 1 := (Nat.succ_pred_eq_of_pos hpos).symm
  rw [hn]
  have hge : (applyFailures cb now (n - 1)).failures + 1
      ≥ (applyFailures cb now (n - 1)).maxFailures := by
    rw [h2, h3, hm]
    omega
  simp [applyFailures, recordFailure, h1, if_pos hge, transitionTo]

/-- Helper: before the halfOpenMax-th consecutive success, a breaker that
started Half-Open with zero successes stays Half-Open and counts them. -/
theorem applySuccesses_halfOpen (cb : CircuitBreaker) (k : ℕ)
    (hc : cb.state = CBState.halfOpen) (hs : cb.successes = 0)
    (hk : (k : ℤ) < cb.halfOpenMax) :
    (applySuccesses cb k).state = CBState.halfOpen ∧
    (applySuccesses cb k).successes = (k : ℤ) ∧
    (applySuccesses cb k).halfOpenMax = cb.halfOpenMax := by
  induction k with
  | zero =>
    refine ⟨hc, ?_, rfl⟩
    simpa using hs
  | succ k ih =>
    obtain ⟨h1, h2, h3⟩ := ih (by push_cast at hk ⊢; omega)
    have hlt : ¬ ((applySuccesses cb k).successes + 1
        ≥ (applySuccesses cb k).halfOpenMax) := by
      rw [h2, h3]
      push_cast at hk ⊢
      omega
    simp only [applySuccesses, recordSuccess, h1, if_neg hlt]
    refine ⟨trivial, ?_, h3⟩
    simp [h2]

/-- Helper: the halfOpenMax-th consecutive success from Half-Open-with-zero
closes the breaker and clears the failure count. -/
theorem applySuccesses_closes (cb : CircuitBreaker) (m : ℕ)
    (hc : cb.state = CBState.halfOpen) (hs : cb.successes = 0)
    (hm : cb.halfOpenMax = (m : ℤ)) (hpos : 0 < m) :
    (applySuccesses cb m).state = CBState.closed ∧
    (applySuccesses cb m).failures = 0 := by
  obtain ⟨h1, h2, h3⟩ := applySuccesses_halfOpen cb (m - 1) hc hs
    (by rw [hm]; omega)
  have hn : m = (m - 1) + 1 := (Nat.succ_pred_eq_of_pos hpos).symm
  rw [hn]
  have hge : (applySuccesses cb (m - 1)).successes + 1
      ≥ (applySuccesses cb (m - 1)).halfOpenMax := by
    rw [h2, h3, hm]
    omega
  simp [applySuccesses, recordSuccess, h1, if_pos hge, transitionTo]

/-- C4 counterexample: at the exact boundary now - lastFailTime = timeout,
the code keeps the breaker Open and rejects (canExecute uses a strict
comparison), while the claim says the breaker transitions to Half-Open and
admits the call. -/
theorem circuit_open_boundary_rejects :
    30 * second - cbOpenAt0.lastFailTime ≥ cbOpenAt0.timeout ∧
    cbOpenAt0.state = CBState.opened ∧
    (canExecute cbOpenAt0 (30 * second)).1 = false ∧
    (canExecute cbOpenAt0 (30 * second)).2.state = CBState.opened := by
  decide

/-- C4 amended: the circuit breaker state machine with the Open-to-Half-Open
transition at now - lastFailTime STRICTLY greater than the timeout. In
Closed, the maxFailures-th consecutive failure opens the breaker (earlier
failures keep it Closed); while Open within the timeout, Execute rejects
with CircuitOpen without running the operation and leaves the breaker
unchanged; strictly past the timeout the next admission moves to Half-Open
and is allowed; in Half-Open, the halfOpenMax-th consecutive success closes
the breaker with failure count zero, while any single failure reopens it. -/
theorem circuit_breaker_state_machine
    (cb1 : CircuitBreaker) (now1 : ℤ) (n : ℕ)
    (h1a : cb1.state = CBState.closed) (h1b : cb1.failures = 0)
    (h1c : cb1.maxFailures = (n : ℤ)) (h1d : 0 < n)
    (cb2 : CircuitBreaker) (now2 : ℤ) (fnFails2 : Bool)
    (h2a : cb2.state = CBState.opened)
    (h2b : now2 - cb2.lastFailTime ≤ cb2.timeout)
    (cb3 : CircuitBreaker) (now3 : ℤ)
    (h3a : cb3.state = CBState.opened)
    (h3b : now3 - cb3.lastFailTime > cb3.timeout)
    (cb4 : CircuitBreaker) (m : ℕ)
    (h4a : cb4.state = CBState.halfOpen) (h4b : cb4.successes = 0)
    (h4c : cb4.halfOpenMax = (m : ℤ)) (h4d : 0 < m)
    (cb5 : CircuitBreaker) (now5 : ℤ) (h5a : cb5.state = CBState.halfOpen) :
    ((applyFailures cb1 now1 n).state = CBState.opened ∧
      (∀ k : ℕ, k < n → (applyFailures cb1 now1 k).state = CBState.closed)) ∧
    Execute cb2 now2 fnFails2 = (ExecOutcome.circuitOpen, cb2) ∧
    ((canExecute cb3 now3).1 = true ∧
      (canExecute cb3 now3).2.state = CBState.halfOpen) ∧
    ((applySuccesses cb4 m).state = CBState.closed ∧
      (applySuccesses cb4 m).failures = 0) ∧
    (recordFailure cb5 now5).state = CBState.opened := by
  refine ⟨⟨applyFailures_opens cb1 now1 n h1a h1b h1c h1d, ?_⟩, ?_, ?_, ?_, ?_⟩
  · intro k hk
    exact (applyFailures_closed cb1 now1 k h1a h1b (by rw [h1c]; omega)).1
  · have hcan : canExecute cb2 now2 = (false, cb2) := by
      simp [canExecute, h2a, if_neg (not_lt.mpr h2b)]
    simp [Execute, hcan]
  · constructor <;> simp [canExecute, h3a, if_pos h3b, transitionTo]
  · exact applySuccesses_closes cb4 m h4a h4b h4c h4d
  · simp [recordFailure, h5a, transitionTo]

/-- C4 amended witness: a breaker with maxFailures 3 opens on the third
failure; the open breaker at time 15s rejects unchanged; at time 31s it
admits and goes Half-Open; a Half-Open breaker with halfOpenMax 3 closes
with zero failures after three successes and reopens on one failure. -/
theorem circuit_breaker_state_machine_witness :
    ((applyFailures cbClosed3 second 3).state = CBState.opened ∧
      (∀ k : ℕ, k < 3 → (applyFailures cbClosed3 second k).state = CBState.closed)) ∧
    Execute cbOpenAt0 (15 * second) true = (ExecOutcome.circuitOpen, cbOpenAt0) ∧
    ((canExecute cbOpenAt0 (31 * second)).1 = true ∧
      (canExecute cbOpenAt0 (31 * second)).2.state = CBState.halfOpen) ∧
    ((applySuccesses cbHalfOpen 3).state = CBState.closed ∧
      (applySuccesses cbHalfOpen 3).failures = 0) ∧
    (recordFailure cbHalfOpen second).state = CBState.opened :=
  circuit_breaker_state_machine
    cbClosed3 second 3 (by decide) (by decide) (by decide) (by decide)
    cbOpenAt0 (15 * second) true (by decide) (by decide)
    cbOpenAt0 (31 * second) (by decide) (by decide)
    cbHalfOpen 3 (by decide) (by decide) (by decide) (by decide)
    cbHalfOpen second (by decide)

/-- C6: calculateTrend computes exactly the specified trend of the
in-window snapshots: with fewer than 3 snapshots strictly inside the trend
window the trend is Stable; otherwise the in-window slice (oldest first) is
split with the lower half first and, for odd length, the middle sample in
the upper half, and with delta = mean upper CPU - mean lower CPU the trend
is Rising iff delta > 3, Falling iff delta < -3, and Stable otherwise. -/
theorem calculateTrend_matches_spec (cfg : AnalyzerConfig)
    (history : List Snapshot) (now : ℤ) :
    calculateTrend cfg history now
      = specTrend (history.filter
          (fun s => decide (now - cfg.trendWindow < s.timestamp))) := by
  unfold calculateTrend specTrend
  by_cases h3 : history.length < 3
  · rw [if_pos h3]
    have hf : (history.filter
        (fun s => decide (now - cfg.trendWindow < s.timestamp))).length < 3 :=
      lt_of_le_of_lt (List.length_filter_le _ _) h3
    rw [if_pos hf]
  · rw [if_neg h3]
    simp only []
    set r := history.filter (fun s => decide (now - cfg.trendWindow < s.timestamp))
      with hr
    by_cases hlen : r.length < 3
    · rw [if_pos hlen, if_pos hlen]
    · rw [if_neg hlen, if_neg hlen]
      have hsplit : r.length - (r.length + 1) / 2 = r.length / 2 := by omega
      rw [hsplit]

/-- C8 counterexample: Analyze on an empty server list leaves memoryStatus
at the Go zero value, the empty string, which is not the Normal status the
claim asserts. -/
theorem analyze_empty_memoryStatus_not_normal :
    emptyClusterMetrics.servers = [] ∧
    (Analyze defaultAnalyzerConfig [] 0 emptyClusterMetrics).1.memoryStatus = "" ∧
    (Analyze defaultAnalyzerConfig [] 0 emptyClusterMetrics).1.memoryStatus
      ≠ ThresholdNormal := by
  decide

/-- C8 amended: Analyze on an empty server list returns the zero
AnalyzedMetrics except that only cpuStatus is explicitly Normal: the
serverCount is 0, the trend Stable, all numeric fields zero, hasSpike
false, and memoryStatus is left at the unset zero value "" (not classified
as Normal); the history is unchanged. -/
theorem analyze_empty_zero (cfg : AnalyzerConfig) (history : List Snapshot)
    (now : ℤ) (cid : String) (ts : ℤ) :
    Analyze cfg history now { clusterID := cid, timestamp := ts, servers := [] }
      = ({ clusterID := cid, timestamp := ts, avgCPU := 0, avgMemory := 0
           serverCount := 0, cpuStatus := ThresholdNormal, memoryStatus := ""
           trend := TrendStable, hasSpike := false, spikePercent := 0
           recommendation := "", sustainedHighAt := none
           sustainedLowAt := none }, history) := rfl

/-- C9: ScaleUp and ScaleDown reject every nonpositive count with the
invalid-target error before any mutation, so the registry and every
derived cluster state are unchanged. -/
theorem scale_nonpositive_count_no_effect
    (t : StateTracker) (now : ℤ) (clusterID : String) (count : ℤ)
    (h : count ≤ 0) :
    ScaleUp t now clusterID count = (Except.error ScalerErr.invalidTarget, t) ∧
    ScaleDown t now clusterID count = (Except.error ScalerErr.invalidTarget, t) ∧
    (∀ cid, GetClusterState (ScaleUp t now clusterID count).2 cid
      = GetClusterState t cid) ∧
    (∀ cid, GetClusterState (ScaleDown t now clusterID count).2 cid
      = GetClusterState t cid) := by
  unfold ScaleUp ScaleDown
  rw [if_pos h, if_pos h]
  exact ⟨rfl, rfl, fun _ => rfl, fun _ => rfl⟩

/-- C9 witness: a zero-count scale-up against a tracker holding one active
server is rejected with the invalid-target error and the tracker is
untouched. -/
theorem scale_nonpositive_count_no_effect_witness :
    (0 : ℤ) ≤ 0 ∧
    ScaleUp tracker1 0 "cluster-1" 0 = (Except.error ScalerErr.invalidTarget, tracker1) ∧
    ScaleDown tracker1 0 "cluster-1" 0 = (Except.error ScalerErr.invalidTarget, tracker1) :=
  ⟨by decide,
   (scale_nonpositive_count_no_effect tracker1 0 "cluster-1" 0 (by decide)).1,
   (scale_nonpositive_count_no_effect tracker1 0 "cluster-1" 0 (by decide)).2.1⟩

/-- C5: in a cycle executing a non-Maintain, non-cooldown decision, the
cooldown is recorded, setting lastScaleTime to now, exactly when the scaler call
returned without error — including partial success, where scaling_complete
is published with status partial — and is not recorded on a scaler error,
where scaling_failed is published and no scaling_complete appears. -/
theorem execute_records_cooldown_iff_success
    (d : ScalingDecision) (lastScaleTimes : LastScaleTimes) (now : ℤ)
    (scaleResp : Except ScalerErr ScaleResult)
    (hact : d.action ≠ ActionMaintain) (hcd : d.cooldownActive = false) :
    (∀ res, scaleResp = Except.ok res →
      (runExecuteStage d lastScaleTimes now scaleResp).1 = true ∧
      (runExecuteStage d lastScaleTimes now scaleResp).2.1 d.clusterID = some now ∧
      (EventTypeScalingComplete, if res.partialFlag then "partial" else "success")
        ∈ (runExecuteStage d lastScaleTimes now scaleResp).2.2) ∧
    (∀ e, scaleResp = Except.error e →
      (runExecuteStage d lastScaleTimes now scaleResp).1 = false ∧
      (runExecuteStage d lastScaleTimes now scaleResp).2.1 = lastScaleTimes ∧
      (EventTypeScalingFailed, "") ∈ (runExecuteStage d lastScaleTimes now scaleResp).2.2 ∧
      (∀ s, (EventTypeScalingComplete, s)
        ∉ (runExecuteStage d lastScaleTimes now scaleResp).2.2)) := by
  have hse : d.ShouldExecute = true := by
    simp [ScalingDecision.ShouldExecute, hact, hcd]
  constructor
  · intro res hres
    subst hres
    simp only [runExecuteStage, hse, if_true, pipelineExecute]
    refine ⟨trivial, ?_, ?_⟩
    · simp [RecordScaling]
    · simp
  · intro e hres
    subst hres
    simp only [runExecuteStage, hse, if_true, pipelineExecute]
    refine ⟨trivial, trivial, by simp, ?_⟩
    intro s
    simp [EventTypeScalingComplete, EventTypeScalingStarted, EventTypeScalingFailed]

/-- C5 witness: executing a ScaleUp decision whose scaler call reported
partial success records the cooldown at the current time and publishes
scaling_complete with status partial. -/
theorem execute_records_cooldown_iff_success_witness :
    scaleUpDecision1.action ≠ ActionMaintain ∧
    scaleUpDecision1.cooldownActive = false ∧
    (runExecuteStage scaleUpDecision1 emptyLastScaleTimes second
      (Except.ok partialResult1)).1 = true ∧
    (runExecuteStage scaleUpDecision1 emptyLastScaleTimes second
      (Except.ok partialResult1)).2.1 scaleUpDecision1.clusterID = some second ∧
    (EventTypeScalingComplete, "partial")
      ∈ (runExecuteStage scaleUpDecision1 emptyLastScaleTimes second
          (Except.ok partialResult1)).2.2 := by
  have h := (execute_records_cooldown_iff_success scaleUpDecision1
    emptyLastScaleTimes second (Except.ok partialResult1) (by decide)
    (by decide)).1 partialResult1 rfl
  refine ⟨by decide, by decide, h.1, h.2.1, ?_⟩
  have hp : partialResult1.partialFlag = true := by decide
  have := h.2.2
  rw [hp] at this
  simpa using this

/-- Helper: an entry of an updated association list is the new binding or
an entry of the original list. -/
theorem mem_setAssoc {α β : Type} [DecidableEq α] (l : List (α × β)) (a : α)
    (b : β) (e : α × β) (he : e ∈ setAssoc l a b) : e = (a, b) ∨ e ∈ l := by
  induction l with
  | nil => simpa [setAssoc] using he
  | cons p rest ih =>
    obtain ⟨k, v⟩ := p
    by_cases hk : k = a
    · rw [show setAssoc ((k, v) :: rest) a b = (a, b) :: rest from by
        simp [setAssoc, hk]] at he
      rcases List.mem_cons.mp he with h | h
      · exact Or.inl h
      · exact Or.inr (List.mem_cons_of_mem _ h)
    · rw [show setAssoc ((k, v) :: rest) a b = (k, v) :: setAssoc rest a b from by
        simp [setAssoc, hk]] at he
      rcases List.mem_cons.mp he with h | h
      · exact Or.inr (by simp [h])
      · rcases ih h with h' | h'
        · exact Or.inl h'
        · exact Or.inr (List.mem_cons_of_mem _ h')

/-- Helper: a successful association lookup names an entry of the list. -/
theorem lookupAssoc_mem {α β : Type} [DecidableEq α] (l : List (α × β)) (a : α)
    (v : β) (h : lookupAssoc l a = some v) : (a, v) ∈ l := by
  induction l with
  | nil => simp [lookupAssoc] at h
  | cons p rest ih =>
    obtain ⟨k, w⟩ := p
    by_cases hk : k = a
    · simp only [lookupAssoc, if_pos hk] at h
      obtain rfl := Option.some_injective _ h
      simp [hk]
    · simp only [lookupAssoc, if_neg hk] at h
      exact List.mem_cons_of_mem _ (ih h)

/-- Helper: the dedup close loop closes exactly the channels of the list
that are not already in the seen set. -/
theorem closeList_mem (seen chs : List ChanId) (c : ChanId) :
    c ∈ (closeList seen chs).1 ↔ (c ∈ chs ∧ c ∉ seen) := by
  induction chs generalizing seen with
  | nil => simp [closeList]
  | cons ch rest ih =>
    by_cases hmem : ch ∈ seen
    · simp only [closeList, if_pos hmem, ih]
      constructor
      · rintro ⟨h, hs⟩
        exact ⟨List.mem_cons_of_mem _ h, hs⟩
      · rintro ⟨h, hs⟩
        rcases List.mem_cons.mp h with rfl | h
        · exact absurd hmem hs
        · exact ⟨h, hs⟩
    · simp only [closeList, if_neg hmem, List.mem_cons, ih]
      constructor
      · rintro (rfl | ⟨h, hs⟩)
        · exact ⟨Or.inl rfl, hmem⟩
        · exact ⟨Or.inr h, fun hc => hs (Or.inr hc)⟩
      · rintro ⟨h | h, hs⟩
        · exact Or.inl h
        · by_cases hc : c = ch
          · exact Or.inl hc
          · exact Or.inr ⟨h, by simp [List.mem_cons, hc, hs]⟩

/-- Helper: the seen set after the dedup close loop is the old seen set
plus the processed channels. -/
theorem closeList_seen_mem (seen chs : List ChanId) (c : ChanId) :
    c ∈ (closeList seen chs).2 ↔ (c ∈ seen ∨ c ∈ chs) := by
  induction chs generalizing seen with
  | nil => simp [closeList]
  | cons ch rest ih =>
    by_cases hmem : ch ∈ seen
    · simp only [closeList, if_pos hmem, ih, List.mem_cons]
      constructor
      · rintro (h | h)
        · exact Or.inl h
        · exact Or.inr (Or.inr h)
      · rintro (h | rfl | h)
        · exact Or.inl h
        · exact Or.inl hmem
        · exact Or.inr h
    · simp only [closeList, if_neg hmem, ih, List.mem_cons]
      tauto

/-- Helper: the dedup close loop emits no channel twice. -/
theorem closeList_nodup (seen chs : List ChanId) :
    (closeList seen chs).1.Nodup := by
  induction chs generalizing seen with
  | nil => simp [closeList]
  | cons ch rest ih =>
    by_cases hmem : ch ∈ seen
    · simpa [closeList, if_pos hmem] using ih seen
    · simp only [closeList, if_neg hmem]
      refine List.nodup_cons.mpr ⟨?_, ih (ch :: seen)⟩
      intro hc
      exact ((closeList_mem (ch :: seen) rest ch).mp hc).2 (List.mem_cons_self _ _)

/-- Helper: the outer close loop closes exactly the subscribed channels not
already in the seen set. -/
theorem closeEntries_mem (entries : List (EventType × List ChanId))
    (seen : List ChanId) (c : ChanId) :
    c ∈ (closeEntries entries seen).1
      ↔ ((∃ e ∈ entries, c ∈ e.2) ∧ c ∉ seen) := by
  induction entries generalizing seen with
  | nil => simp [closeEntries]
  | cons e rest ih =>
    simp only [closeEntries, List.mem_append, closeList_mem, ih]
    constructor
    · rintro (⟨h, hs⟩ | ⟨⟨e', he', hc⟩, hs⟩)
      · exact ⟨⟨e, List.mem_cons_self _ _, h⟩, hs⟩
      · rw [closeList_seen_mem] at hs
        push_neg at hs
        exact ⟨⟨e', List.mem_cons_of_mem _ he', hc⟩, hs.1⟩
    · rintro ⟨⟨e', he', hc⟩, hs⟩
      rcases List.mem_cons.mp he' with rfl | he'
      · exact Or.inl ⟨hc, hs⟩
      · by_cases hin : c ∈ e.2
        · exact Or.inl ⟨hin, hs⟩
        · refine Or.inr ⟨⟨e', he', hc⟩, ?_⟩
          rw [closeList_seen_mem]
          push_neg
          exact ⟨hs, hin⟩

/-- Helper: the seen set after the outer close loop is the old seen set
plus every subscribed channel. -/
theorem closeEntries_seen_mem (entries : List (EventType × List ChanId))
    (seen : List ChanId) (c : ChanId) :
    c ∈ (closeEntries entries seen).2
      ↔ (c ∈ seen ∨ ∃ e ∈ entries, c ∈ e.2) := by
  induction entries generalizing seen with
  | nil => simp [closeEntries]
  | cons e rest ih =>
    simp only [closeEntries, ih, closeList_seen_mem]
    constructor
    · rintro ((h | h) | ⟨e', he', hc⟩)
      · exact Or.inl h
      · exact Or.inr ⟨e, List.mem_cons_self _ _, h⟩
      · exact Or.inr ⟨e', List.mem_cons_of_mem _ he', hc⟩
    · rintro (h | ⟨e', he', hc⟩)
      · exact Or.inl (Or.inl h)
      · rcases List.mem_cons.mp he' with rfl | he'
        · exact Or.inl (Or.inr hc)
        · exact Or.inr ⟨e', he', hc⟩

/-- Helper: the outer close loop emits no duplicates and nothing from the
initial seen set. -/
theorem closeEntries_nodup (entries : List (EventType × List ChanId))
    (seen : List ChanId) :
    (closeEntries entries seen).1.Nodup ∧
    (∀ c ∈ (closeEntries entries seen).1, c ∉ seen) := by
  induction entries generalizing seen with
  | nil => simp [closeEntries]
  | cons e rest ih =>
    obtain ⟨ihn, ihs⟩ := ih (closeList seen e.2).2
    simp only [closeEntries]
    constructor
    · refine List.Nodup.append (closeList_nodup seen e.2) ihn ?_
      intro a ha hb
      exact ihs a hb
        ((closeList_seen_mem seen e.2 a).mpr
          (Or.inr ((closeList_mem seen e.2 a).mp ha).1))
    · intro c hc
      rcases List.mem_append.mp hc with h | h
      · exact ((closeList_mem seen e.2 c).mp h).2
      · intro hs
        exact ihs c h ((closeList_seen_mem seen e.2 c).mpr (Or.inl hs))

/-- Helper: every channel list produced by the SubscribeAll fold holds only
the fresh channel or channels already subscribed beforehand. -/
theorem subscribeAll_fold_sources (ts : List EventType)
    (subs : List (EventType × List ChanId)) (ch : ChanId) :
    ∀ e ∈ ts.foldl
        (fun acc t => setAssoc acc t ((lookupAssoc acc t).getD [] ++ [ch])) subs,
      ∀ c ∈ e.2, c = ch ∨ ∃ e' ∈ subs, c ∈ e'.2 := by
  induction ts generalizing subs with
  | nil =>
    intro e he c hc
    exact Or.inr ⟨e, he, hc⟩
  | cons t ts ih =>
    intro e he c hc
    rcases ih (setAssoc subs t ((lookupAssoc subs t).getD [] ++ [ch])) e he c hc
      with h | ⟨e', he', hc'⟩
    · exact Or.inl h
    · rcases mem_setAssoc _ _ _ e' he' with heq | he''
      · rw [heq] at hc'
        rcases List.mem_append.mp hc' with h | h
        · cases hl : lookupAssoc subs t with
          | none => rw [hl] at h; simp at h
          | some v =>
            rw [hl] at h
            exact Or.inr ⟨(t, v), lookupAssoc_mem _ _ _ hl, h⟩
        · simp only [List.mem_singleton] at h
          exact Or.inl h
      · exact Or.inr ⟨e', he'', hc'⟩

/-- Helper: every bus built by subscriptions has duplicate-free allChans,
all channel ids below the allocation counter, and is not closed. -/
theorem busReachable_inv (b : EventBus) (h : BusReachable b) :
    b.allChans.Nodup ∧ (∀ c ∈ b.allChans, c < b.nextChan) ∧
    (∀ e ∈ b.subscribers, ∀ c ∈ e.2, c < b.nextChan) ∧ b.closed = false := by
  induction h with
  | new n => simp [NewEventBus]
  | subscribe t hb ih =>
    obtain ⟨h1, h2, h3, h4⟩ := ih
    simp only [Subscribe]
    refine ⟨h1, ?_, ?_, h4⟩
    · intro c hc
      exact lt_trans (h2 c hc) (lt_add_one _)
    · intro e he c hc
      rcases mem_setAssoc _ _ _ e he with heq | he'
      · rw [heq] at hc
        rcases List.mem_append.mp hc with h | h
        · cases hl : lookupAssoc _ t with
          | none => rw [hl] at h; simp at h
          | some v =>
            rw [hl] at h
            exact lt_trans (h3 (t, v) (lookupAssoc_mem _ _ _ hl) c h) (lt_add_one _)
        · simp only [List.mem_singleton] at h
          exact lt_of_eq_of_lt h (lt_add_one _)
      · exact lt_trans (h3 e he' c hc) (lt_add_one _)
  | subscribeAll hb ih =>
    obtain ⟨h1, h2, h3, h4⟩ := ih
    simp only [SubscribeAll]
    refine ⟨?_, ?_, ?_, h4⟩
    · refine List.Nodup.append h1 (List.nodup_singleton _) ?_
      intro a ha hb'
      simp only [List.mem_singleton] at hb'
      subst hb'
      exact lt_irrefl _ (h2 _ ha)
    · intro c hc
      rcases List.mem_append.mp hc with h | h
      · exact lt_trans (h2 c h) (lt_add_one _)
      · simp only [List.mem_singleton] at h
        exact lt_of_eq_of_lt h (lt_add_one _)
    · intro e he c hc
      rcases subscribeAll_fold_sources allEventTypes _ _ e he c hc with h | ⟨e', he', hc'⟩
      · exact lt_of_eq_of_lt h (lt_add_one _)
      · exact lt_trans (h3 e' he' c hc') (lt_add_one _)

/-- C7: on every bus built by subscriptions, Close closes every subscriber
channel exactly once (the closed list has no duplicates and covers exactly
the registered channels, SubscribeAll channels included), every Publish
after Close attempts no delivery, and a second Close is a no-op. -/
theorem eventbus_close_exactly_once (b : EventBus) (hreach : BusReachable b) :
    (Close b).1.Nodup ∧
    (∀ c, c ∈ (Close b).1
      ↔ (c ∈ b.allChans ∨ ∃ e ∈ b.subscribers, c ∈ e.2)) ∧
    (∀ t, Publish (Close b).2 t = []) ∧
    Close (Close b).2 = ([], (Close b).2) := by
  obtain ⟨h1, _, _, h4⟩ := busReachable_inv b hreach
  have hclose : Close b
      = (b.allChans ++ (closeEntries b.subscribers b.allChans).1,
         { b with closed := true, subscribers := [], allChans := [] }) := by
    simp [Close, h4]
  obtain ⟨hnd, hns⟩ := closeEntries_nodup b.subscribers b.allChans
  refine ⟨?_, ?_, ?_, ?_⟩
  · rw [hclose]
    exact List.Nodup.append h1 hnd (fun a ha hb => hns a hb ha)
  · intro c
    rw [hclose]
    simp only [List.mem_append, closeEntries_mem]
    constructor
    · rintro (h | ⟨h, _⟩)
      · exact Or.inl h
      · exact Or.inr h
    · rintro (h | h)
      · exact Or.inl h
      · by_cases hs : c ∈ b.allChans
        · exact Or.inl hs
        · exact Or.inr ⟨h, hs⟩
  · intro t
    rw [hclose]
    simp [Publish]
  · rw [hclose]
    simp [Close]

/-- C7 witness: the bus with one alert subscriber and one SubscribeAll
subscriber: its Close closes exactly the registered channels once, later
publishes deliver nothing, and a second Close does nothing. -/
theorem eventbus_close_exactly_once_witness :
    BusReachable witnessBus ∧
    (Close witnessBus).1.Nodup ∧
    (∀ c, c ∈ (Close witnessBus).1
      ↔ (c ∈ witnessBus.allChans ∨ ∃ e ∈ witnessBus.subscribers, c ∈ e.2)) ∧
    (∀ t, Publish (Close witnessBus).2 t = []) ∧
    Close (Close witnessBus).2 = ([], (Close witnessBus).2) := by
  have hr : BusReachable witnessBus :=
    BusReachable.subscribeAll
      (BusReachable.subscribe EventTypeAlert (BusReachable.new 10))
  exact ⟨hr, eventbus_close_exactly_once witnessBus hr⟩

end Autoscaler

